import Mathlib

/-!
A shallow embedding of the todo HTTP service in `src/main.go` (package `main`):
the four request handlers `fetchTodos`, `createTodo`, `updateTodo` and
`deleteTodo`, acting on a MongoDB collection of todo documents, together with
models of the library functions they call (`bson.IsObjectIdHex`,
`bson.ObjectIdHex`, `ObjectId.Hex`, `strings.TrimSpace`, `time.Time.Format`
with layout "2006-01-02 15:04:05", `encoding/json` decoding into the `todo`
struct, and the mgo collection operations `Find.All`, `Insert`, `RemoveId`,
`Update`).

Each handler is embedded as a pure function from its inputs (path parameter,
decoded request body, fresh ObjectId and current time where the source calls
`bson.NewObjectId()` / `time.Now()`) and the current collection state to a
`HandlerResult`: the ordered list of JSON responses rendered via `rnd.JSON`,
the final collection state, and a flag recording whether the handler panicked
(`bson.ObjectIdHex` panics on a string that is not a valid 24-character hex
ObjectId). A handler that renders nothing corresponds to Go writing an
implicit `200` with an empty body.
-/

namespace TodoGo

/-! ### ObjectId and hex encoding (gopkg.in/mgo.v2/bson) -/

/-- A BSON ObjectId: 12 raw bytes (`type ObjectId string` in mgo/bson). -/
structure ObjectId where
  bytes : List Nat
deriving DecidableEq

/-- Value of a hex digit character, as accepted by Go `encoding/hex`
(both lower and upper case). -/
def hexDigitVal (c : Char) : Option Nat :=
  if '0' ≤ c ∧ c ≤ '9' then some (c.toNat - 48)
  else if 'a' ≤ c ∧ c ≤ 'f' then some (c.toNat - 87)
  else if 'A' ≤ c ∧ c ≤ 'F' then some (c.toNat - 55)
  else none

/-- Go `hex.DecodeString`: decodes pairs of hex digits into bytes, failing on
odd length or a non-hex character. -/
def hexDecode : List Char → Option (List Nat)
  | [] => some []
  | [_] => none
  | c1 :: c2 :: rest =>
    match hexDigitVal c1, hexDigitVal c2, hexDecode rest with
    | some h, some l, some r => some ((16 * h + l) :: r)
    | _, _, _ => none

/-- Lowercase hex digit for a value below 16 (Go `hex.EncodeToString`). -/
def hexDigitChar (n : Nat) : Char :=
  if n < 10 then Char.ofNat (48 + n) else Char.ofNat (87 + n)

/-- Two lowercase hex digits of one byte. -/
def byteHex (b : Nat) : List Char :=
  [hexDigitChar (b / 16), hexDigitChar (b % 16)]

/-- Model of `ObjectId.Hex`: the 24-character lowercase hex form of the 12 bytes. -/
def ObjectId.hex (oid : ObjectId) : String :=
  String.mk (oid.bytes.foldr (fun b acc => byteHex b ++ acc) [])

/-- Model of `bson.IsObjectIdHex id`: length 24 and hex-decodable. -/
def isObjectIdHex (s : String) : Bool :=
  s.data.length == 24 && (hexDecode s.data).isSome

/-- Model of `bson.ObjectIdHex id`: decode the hex string into 12 bytes. The Go
function panics when the string does not decode to exactly 12 bytes; the
panic is modelled by `none`. -/
def objectIdHex (s : String) : Option ObjectId :=
  match hexDecode s.data with
  | some d => if d.length == 12 then some ⟨d⟩ else none
  | none => none

/-! ### strings.TrimSpace -/

/-- Go `unicode.IsSpace`: the white space code points trimmed by
`strings.TrimSpace`. -/
def goIsSpace (c : Char) : Bool :=
  c = ' ' || c = '\t' || c = '\n' || c = '\x0b' || c = '\x0c' || c = '\r' ||
  c.toNat = 0x85 || c.toNat = 0xA0 || c.toNat = 0x1680 ||
  (0x2000 ≤ c.toNat && c.toNat ≤ 0x200A) ||
  c.toNat = 0x2028 || c.toNat = 0x2029 || c.toNat = 0x202F ||
  c.toNat = 0x205F || c.toNat = 0x3000

/-- Go `strings.TrimSpace`: drop leading and trailing white space. -/
def trimSpace (s : String) : String :=
  String.mk (((s.data.dropWhile goIsSpace).reverse.dropWhile goIsSpace).reverse)

/-! ### time.Time and the layout "2006-01-02 15:04:05" -/

/-- A wall-clock timestamp, at the second granularity the layout
"2006-01-02 15:04:05" renders. -/
structure DateTime where
  year : Nat
  month : Nat
  day : Nat
  hour : Nat
  minute : Nat
  second : Nat
deriving DecidableEq

/-- The zero `time.Time`: January 1, year 1, 00:00:00. A stored document
missing the `createAt` field unmarshals to this value. -/
def DateTime.zero : DateTime := ⟨1, 1, 1, 0, 0, 0⟩

/-- Decimal rendering of `n` left-padded with zeros to width `w`, as the
fixed-width verbs of the Go layout produce. -/
def padNum (w : Nat) (n : Nat) : String :=
  let s := Nat.repr n
  String.mk (List.replicate (w - s.data.length) '0') ++ s

/-- Go `t.Format "2006-01-02 15:04:05"`. -/
def DateTime.format (d : DateTime) : String :=
  padNum 4 d.year ++ "-" ++ padNum 2 d.month ++ "-" ++ padNum 2 d.day ++ " " ++
  padNum 2 d.hour ++ ":" ++ padNum 2 d.minute ++ ":" ++ padNum 2 d.second

/-! ### The two record representations (src/main.go lines 30-43) -/

/-- Stored record `todoModel`: the stored document. `CreateAt` is an `Option` because a
MongoDB replacement update can write a document without the `createAt`
field; a missing field reads back as the zero time. -/
structure todoModel where
  ID : ObjectId
  Title : String
  Completed : Bool
  CreateAt : Option DateTime
deriving DecidableEq

/-- Wire record `todo`: the JSON-facing representation. -/
structure todo where
  ID : String
  Title : String
  Completed : Bool
  CreateAt : String
deriving DecidableEq

/-- The zero value of the `todo` struct (`var t todo`). -/
def zeroTodo : todo := ⟨"", "", false, ""⟩

/-- The collection `db.C("todo")`: stored documents in scan order. -/
abbrev Collection := List todoModel

/-! ### encoding/json decoding into `todo`

The request body is abstracted as its sequence of decoded top-level
object members. Go `json.Decoder.Decode` into a struct sets each exported
field as its member is decoded, ignores unknown members, keeps the last
value for a duplicated member, records an `UnmarshalTypeError` on a
type-mismatched member while continuing with the remaining members, and on
a syntax error stops, keeping the fields already set. So a failing
`Decode` can leave earlier fields of `t` populated. -/

/-- A decoded JSON value for a member of the request object. -/
inductive JValue where
  | str (s : String)
  | bool (b : Bool)
  | num (n : Int)
deriving DecidableEq

/-- A request body, abstracted as its decode-relevant content: a well-formed
JSON object given by its member list, or a body whose JSON syntax breaks
after the given complete members (`malformed []` is a body that is not an
object at all). -/
inductive Body where
  | object (fields : List (String × JValue))
  | malformed (fields : List (String × JValue))
deriving DecidableEq

/-- Decoding one object member into the `todo` struct, with the error flag
accumulated: the JSON tags are `id`, `title`, `completed`, `createAt`; a
type-mismatched member sets the error and is skipped; unknown members are
ignored. -/
def setField (acc : Bool × todo) (f : String × JValue) : Bool × todo :=
  match f with
  | ("id", JValue.str s) => (acc.1, { acc.2 with ID := s })
  | ("title", JValue.str s) => (acc.1, { acc.2 with Title := s })
  | ("completed", JValue.bool b) => (acc.1, { acc.2 with Completed := b })
  | ("createAt", JValue.str s) => (acc.1, { acc.2 with CreateAt := s })
  | ("id", _) => (true, acc.2)
  | ("title", _) => (true, acc.2)
  | ("completed", _) => (true, acc.2)
  | ("createAt", _) => (true, acc.2)
  | _ => acc

/-- Model of `json.NewDecoder(r.Body).Decode(&t)` with `var t todo`: returns whether
an error was reported together with the final contents of `t`. -/
def decodeTodo : Body → Bool × todo
  | Body.object fields => fields.foldl setField (false, zeroTodo)
  | Body.malformed fields => (true, (fields.foldl setField (false, zeroTodo)).2)

/-! ### Responses rendered through rnd.JSON -/

/-- The JSON payloads the handlers render. `errorDetail` stands for a
`renderer.M` carrying both a "message" and an "error" member (the storage
error detail is not modelled beyond its presence); `decodeFailure` is the
raw decode error object rendered by `createTodo` and `updateTodo`. -/
inductive RespBody where
  | message (msg : String)
  | errorDetail (msg : String)
  | decodeFailure
  | data (todos : List todo)
  | created (msg : String) (todoId : String)
deriving DecidableEq

/-- One call to `rnd.JSON w status body`. -/
structure Response where
  status : Nat
  body : RespBody
deriving DecidableEq

/-- Status code `http.StatusOK`. -/
def statusOK : Nat := 200

/-- Status code `http.StatusBadRequest`. -/
def statusBadRequest : Nat := 400

/-- Status code `http.StatusProcessing`. -/
def statusProcessing : Nat := 102

/-- Outcome of running one handler: responses rendered in order, the final
collection state, and whether the handler panicked. -/
structure HandlerResult where
  responses : List Response
  coll : Collection
  panicked : Bool
deriving DecidableEq

/-! ### mgo collection operations -/

/-- Model of `db.C(collectionName).Find(bson.M\x7b\x7d).All(&todos)`: every document in
scan order. -/
def findAll (coll : Collection) : List todoModel := coll

/-- Model of `Insert(&tm)`: append the new document. -/
def insertDoc (coll : Collection) (tm : todoModel) : Collection :=
  coll ++ [tm]

/-- Model of `RemoveId(oid)`: remove the document whose `_id` matches; `none` models
the `mgo.ErrNotFound` error when no document matches. -/
def removeId (oid : ObjectId) : Collection → Option Collection
  | [] => none
  | d :: ds =>
    if d.ID = oid then some ds
    else (removeId oid ds).map (fun ds' => d :: ds')

/-- Model of mgo `Update` with selector on `_id` and the update document holding only `title` and `completed`:
the update document contains no `$` operators, so MongoDB performs a full
document replacement — the matched document is replaced by one holding only
the immutable `_id`, the new `title` and the new `completed`; its `createAt`
field is gone. `none` models the `mgo.ErrNotFound` error when no document
matches the selector. -/
def updateReplace (oid : ObjectId) (title : String) (completed : Bool) :
    Collection → Option Collection
  | [] => none
  | d :: ds =>
    if d.ID = oid then
      some ({ ID := d.ID, Title := title, Completed := completed,
              CreateAt := none } :: ds)
    else (updateReplace oid title completed ds).map (fun ds' => d :: ds')

/-! ### The four handlers (src/main.go lines 57-156) -/

/-- The wire record built from a stored document in the `fetchTodos` loop
(src/main.go lines 66-73): hex id, copied title and completed flag, and the
formatted timestamp (the zero time when the stored field is absent). -/
def wireOf (t : todoModel) : todo :=
  { ID := t.ID.hex, Title := t.Title, Completed := t.Completed,
    CreateAt := (t.CreateAt.getD DateTime.zero).format }

/-- Handler `fetchTodos` (src/main.go lines 57-78) on a reachable read: list every
document, format each into a wire record, respond `200 {data: ...}`. The
storage-connectivity failure branch (lines 59-64) is not modelled; the
in-memory scan always succeeds. -/
def fetchTodos (coll : Collection) : HandlerResult :=
  { responses := [⟨statusOK, RespBody.data ((findAll coll).map wireOf)⟩],
    coll := coll, panicked := false }

/-- Handler `createTodo` (src/main.go lines 80-110). `newId` is the value of
`bson.NewObjectId()` and `now` of `time.Now()`. On a decode error the
handler renders it and returns. On an empty title it renders a 400 but does
NOT return, so it still builds the document and inserts it. The insert
error branch fires when the minted `_id` already exists in the collection
(the only insert failure expressible in the in-memory model). -/
def createTodo (newId : ObjectId) (now : DateTime) (body : Body)
    (coll : Collection) : HandlerResult :=
  let dec := decodeTodo body
  if dec.1 then
    { responses := [⟨statusProcessing, RespBody.decodeFailure⟩],
      coll := coll, panicked := false }
  else
    let r1 : List Response :=
      if dec.2.Title = "" then
        [⟨statusBadRequest, RespBody.message "title is required"⟩]
      else []
    let tm : todoModel :=
      { ID := newId, Title := dec.2.Title, Completed := false,
        CreateAt := some now }
    if coll.any (fun d => d.ID = tm.ID) then
      { responses := r1 ++ [⟨statusProcessing, RespBody.errorDetail "error creating todo"⟩],
        coll := coll, panicked := false }
    else
      { responses := r1 ++ [⟨statusOK,
          RespBody.created "todo created successfully" tm.ID.hex⟩],
        coll := insertDoc coll tm, panicked := false }

/-- Handler `deleteTodo` (src/main.go lines 112-129). The whole body after the trim
sits inside `if !bson.IsObjectIdHex(id)`: on a VALID id the handler does
nothing at all (no removal, no response); on an invalid id it renders the
400 and then calls `bson.ObjectIdHex(id)`, which panics on exactly the
strings `IsObjectIdHex` rejects, so `RemoveId` is never reached. -/
def deleteTodo (idParam : String) (coll : Collection) : HandlerResult :=
  let id := trimSpace idParam
  if !isObjectIdHex id then
    let r1 : List Response :=
      [⟨statusBadRequest, RespBody.message "The id is invalid"⟩]
    match objectIdHex id with
    | none => { responses := r1, coll := coll, panicked := true }
    | some oid =>
      match removeId oid coll with
      | none =>
        { responses := r1 ++ [⟨statusProcessing, RespBody.errorDetail "error deleting todo"⟩],
          coll := coll, panicked := false }
      | some coll' =>
        { responses := r1 ++ [⟨statusOK, RespBody.message "todo deleted successfully"⟩],
          coll := coll', panicked := false }
  else
    { responses := [], coll := coll, panicked := false }

/-- Handler `updateTodo` (src/main.go lines 130-156). An invalid id renders a 400
without returning; a decode error renders it without returning; an empty
title renders a 400 and returns. Otherwise `bson.ObjectIdHex(id)` is
evaluated (panicking when the id is invalid, before any write) and the
replacement update runs; its `ErrNotFound` failure renders the
"failed to update todo" payload; on success nothing is rendered (implicit
200 with empty body). -/
def updateTodo (idParam : String) (body : Body) (coll : Collection) :
    HandlerResult :=
  let id := trimSpace idParam
  let r1 : List Response :=
    if !isObjectIdHex id then
      [⟨statusBadRequest, RespBody.message "The id is invalid"⟩]
    else []
  let dec := decodeTodo body
  let r2 : List Response :=
    if dec.1 then [⟨statusProcessing, RespBody.decodeFailure⟩] else []
  if dec.2.Title = "" then
    { responses := r1 ++ r2 ++
        [⟨statusBadRequest, RespBody.message "the title field is required"⟩],
      coll := coll, panicked := false }
  else
    match objectIdHex id with
    | none => { responses := r1 ++ r2, coll := coll, panicked := true }
    | some oid =>
      match updateReplace oid dec.2.Title dec.2.Completed coll with
      | none =>
        { responses := r1 ++ r2 ++
            [⟨statusProcessing, RespBody.errorDetail "failed to update todo"⟩],
          coll := coll, panicked := false }
      | some coll' =>
        { responses := r1 ++ r2, coll := coll', panicked := false }

/-! ### Concrete fixtures used by the evaluation theorems -/

/-- A concrete ObjectId: twelve zero bytes (hex form is 24 zeros). -/
def oid0 : ObjectId := ⟨List.replicate 12 0⟩

/-- The 24-character hex string of `oid0`, as a path parameter. -/
def zeroId : String := "000000000000000000000000"

/-- A concrete creation timestamp. -/
def dt0 : DateTime := ⟨2024, 5, 17, 10, 30, 5⟩

/-- A concrete stored document with a present `createAt` field. -/
def doc0 : todoModel :=
  { ID := oid0, Title := "buy milk", Completed := false, CreateAt := some dt0 }

/-! ### Helper lemmas -/

/-- Hex decoding produces one byte per two characters. -/
theorem hexDecode_length : ∀ cs : List Char, ∀ d : List Nat,
    hexDecode cs = some d → cs.length = 2 * d.length
  | [], d, h => by
      simp only [hexDecode, Option.some.injEq] at h
      subst h; rfl
  | [_], d, h => by simp only [hexDecode] at h; exact absurd h (by simp)
  | c1 :: c2 :: rest, d, h => by
      simp only [hexDecode] at h
      split at h
      · next hv h1 h2 h3 =>
          have ih := hexDecode_length rest _ h3
          cases h
          simp only [List.length_cons, ih]
          ring
      · exact absurd h (by simp)

/-- On every string `bson.IsObjectIdHex` rejects, `bson.ObjectIdHex` panics
(modelled as `none`), so in the source no storage call ever receives an
ObjectId built from an invalid path id. -/
theorem objectIdHex_eq_none (s : String) (h : isObjectIdHex s = false) :
    objectIdHex s = none := by
  unfold objectIdHex
  cases hd : hexDecode s.data with
  | none => rfl
  | some d =>
    have hlen := hexDecode_length s.data d hd
    unfold isObjectIdHex at h
    rw [hd] at h
    simp only [Option.isSome_some, Bool.and_true, beq_iff_eq] at h
    have h24 : s.data.length ≠ 24 := by simpa using h
    have : d.length ≠ 12 := by omega
    simp [this]

/-! ### The claims -/

/-- Claim C1: for a payload with empty or missing title, create and update
were claimed to return a bad request and perform no write. The update half
holds, but the create half fails on the code: `createTodo` renders the 400
and then, lacking a return, still inserts an empty-title document and
renders a 200 success. This theorem evaluates `createTodo` on the payload
with a missing title over the empty collection: the record is written. -/
theorem claim_C1_create_inserts_despite_bad_request :
    (createTodo oid0 dt0 (Body.object []) []).responses =
      [⟨statusBadRequest, RespBody.message "title is required"⟩,
       ⟨statusOK, RespBody.created "todo created successfully" zeroId⟩] ∧
    (createTodo oid0 dt0 (Body.object []) []).coll =
      [{ ID := oid0, Title := "", Completed := false, CreateAt := some dt0 }] := by
  decide

/-- Claim C2: for a syntactically valid path id, delete was claimed to
remove the record and return a 200. On the code the whole handler body sits
inside the inverted check `if !bson.IsObjectIdHex(id)`, so on a valid id
`deleteTodo` removes nothing and renders nothing: here the valid id
`zeroId` names the stored document `doc0`, yet the collection is unchanged
and no response is produced. -/
theorem claim_C2_delete_valid_id_is_noop :
    isObjectIdHex (trimSpace zeroId) = true ∧
    (deleteTodo zeroId [doc0]).coll = [doc0] ∧
    (deleteTodo zeroId [doc0]).responses = [] ∧
    (deleteTodo zeroId [doc0]).panicked = false := by
  decide

/-- Claim C3: a successful update was claimed to overwrite only title and
completed, leaving id and createdAt unchanged. The mgo `Update` call passes
an update document without `$` operators, so MongoDB replaces the whole
document: the id is kept, but the stored `createAt` field is erased. Here
`doc0` carries `createAt = dt0`; after the update the matching document has
no `createAt` at all. -/
theorem claim_C3_update_erases_createAt :
    doc0.CreateAt = some dt0 ∧
    (updateTodo zeroId
        (Body.object [("title", JValue.str "buy bread"), ("completed", JValue.bool true)])
        [doc0]).coll =
      [{ ID := oid0, Title := "buy bread", Completed := true, CreateAt := none }] := by
  decide

/-- Claim C4: for every syntactically invalid path id, the update and the
delete handlers each render the 400 "The id is invalid" response and leave
the collection untouched (on such ids `bson.ObjectIdHex` panics before any
storage call, so no write can occur). -/
theorem claim_C4_invalid_id_client_error_no_write (idParam : String) (body : Body)
    (coll : Collection) (h : isObjectIdHex (trimSpace idParam) = false) :
    ((updateTodo idParam body coll).coll = coll ∧
      (⟨statusBadRequest, RespBody.message "The id is invalid"⟩ : Response) ∈
        (updateTodo idParam body coll).responses) ∧
    ((deleteTodo idParam coll).coll = coll ∧
      (⟨statusBadRequest, RespBody.message "The id is invalid"⟩ : Response) ∈
        (deleteTodo idParam coll).responses) := by
  have hnone := objectIdHex_eq_none _ h
  constructor
  · unfold updateTodo
    simp only [h, Bool.not_false, if_true, hnone]
    split <;> exact ⟨rfl, by simp⟩
  · unfold deleteTodo
    simp only [h, Bool.not_false, if_true, hnone]
    simp

/-- Witness for claim C4 at the concrete invalid id "not-a-hex". -/
theorem claim_C4_witness :
    isObjectIdHex (trimSpace "not-a-hex") = false ∧
    (((updateTodo "not-a-hex" (Body.object [("title", JValue.str "x")]) [doc0]).coll = [doc0] ∧
      (⟨statusBadRequest, RespBody.message "The id is invalid"⟩ : Response) ∈
        (updateTodo "not-a-hex" (Body.object [("title", JValue.str "x")]) [doc0]).responses) ∧
     ((deleteTodo "not-a-hex" [doc0]).coll = [doc0] ∧
      (⟨statusBadRequest, RespBody.message "The id is invalid"⟩ : Response) ∈
        (deleteTodo "not-a-hex" [doc0]).responses)) :=
  ⟨by decide, claim_C4_invalid_id_client_error_no_write "not-a-hex"
    (Body.object [("title", JValue.str "x")]) [doc0] (by decide)⟩

/-- Claim C5: every operation-level error was claimed to be translated into
a response, never a crash. On the code a syntactically invalid path id
makes `bson.ObjectIdHex` panic inside the request handler: in `deleteTodo`
right after the 400 is rendered, and in `updateTodo` (with a non-empty
decoded title) when the update call evaluates its selector. -/
theorem claim_C5_invalid_id_panics :
    (deleteTodo "xyz" [doc0]).panicked = true ∧
    (updateTodo "xyz" (Body.object [("title", JValue.str "buy bread")]) [doc0]).panicked
      = true := by
  decide

/-- Claim C6: no stored record was claimed to ever have an empty title. The
empty collection satisfies the invariant, yet one create request with an
empty title reaches a state containing an empty-title record, because
`createTodo` does not return after rendering the validation error. -/
theorem claim_C6_empty_title_reachable :
    (∀ d ∈ ([] : Collection), d.Title ≠ "") ∧
    (∃ d ∈ (createTodo oid0 dt0 (Body.object [("title", JValue.str "")]) []).coll,
      d.Title = "") := by
  decide

/-- Claim C7: after deleting an existing id, a subsequent list was claimed
to no longer contain it, and a second delete was claimed to give a defined
error. On the code the first delete is a silent no-op, the subsequent list
still shows the record with that id, and the second delete is again a
silent no-op with no response at all. -/
theorem claim_C7_deleted_id_still_listed :
    (deleteTodo zeroId [doc0]).coll = [doc0] ∧
    (fetchTodos (deleteTodo zeroId [doc0]).coll).responses =
      [⟨statusOK,
        RespBody.data [⟨zeroId, "buy milk", false, "2024-05-17 10:30:05"⟩]⟩] ∧
    (deleteTodo zeroId (deleteTodo zeroId [doc0]).coll).responses = [] := by
  decide

/-- Claim C8: for every create request that decodes without error to a
non-empty title, and a freshly minted id, the handler appends exactly one
document carrying the minted id, the decoded title, completed false and the
current time, and responds 200 with the minted id in hex. The resulting
state and response depend only on the decoded title, so any client-supplied
id, completed or createAt values are ignored. -/
theorem claim_C8_create_success (newId : ObjectId) (now : DateTime) (body : Body)
    (coll : Collection)
    (hfresh : ∀ d ∈ coll, d.ID ≠ newId)
    (hdec : (decodeTodo body).1 = false)
    (htitle : (decodeTodo body).2.Title ≠ "") :
    (createTodo newId now body coll).coll =
      coll ++ [{ ID := newId, Title := (decodeTodo body).2.Title,
                 Completed := false, CreateAt := some now }] ∧
    (createTodo newId now body coll).responses =
      [⟨statusOK, RespBody.created "todo created successfully" newId.hex⟩] ∧
    (createTodo newId now body coll).panicked = false := by
  have hany : coll.any (fun d => d.ID = newId) = false := by
    simp only [List.any_eq_false, decide_eq_true_eq]
    exact hfresh
  unfold createTodo
  simp [hdec, htitle, hany, insertDoc]

/-- Witness for claim C8 at the concrete body with title "buy milk". -/
theorem claim_C8_witness :
    ((∀ d ∈ ([] : Collection), d.ID ≠ oid0) ∧
      (decodeTodo (Body.object [("title", JValue.str "buy milk")])).1 = false ∧
      (decodeTodo (Body.object [("title", JValue.str "buy milk")])).2.Title ≠ "") ∧
    ((createTodo oid0 dt0 (Body.object [("title", JValue.str "buy milk")]) []).coll =
      [] ++ [{ ID := oid0, Title := "buy milk", Completed := false, CreateAt := some dt0 }] ∧
     (createTodo oid0 dt0 (Body.object [("title", JValue.str "buy milk")]) []).responses =
      [⟨statusOK, RespBody.created "todo created successfully" oid0.hex⟩] ∧
     (createTodo oid0 dt0 (Body.object [("title", JValue.str "buy milk")]) []).panicked
      = false) :=
  ⟨⟨by decide, by decide, by decide⟩,
   claim_C8_create_success oid0 dt0 (Body.object [("title", JValue.str "buy milk")]) []
     (by decide) (by decide) (by decide)⟩

/-- Claim C9: for every collection state, the list handler responds exactly
once, with a 200 whose payload sits under the data key and holds one wire
record per stored record, in scan order: id in hex, title and completed
copied, and createdAt rendered through the fixed "YYYY-MM-DD HH:MM:SS"
layout. The collection is not modified. -/
theorem claim_C9_list_translation (coll : Collection) :
    ∃ wires : List todo,
      (fetchTodos coll).responses = [⟨statusOK, RespBody.data wires⟩] ∧
      (fetchTodos coll).coll = coll ∧
      List.Forall₂ (fun (w : todo) (t : todoModel) =>
        w.ID = t.ID.hex ∧ w.Title = t.Title ∧ w.Completed = t.Completed ∧
        w.CreateAt = (t.CreateAt.getD DateTime.zero).format) wires coll := by
  refine ⟨coll.map wireOf, rfl, rfl, ?_⟩
  rw [List.forall₂_map_left_iff, List.forall₂_same]
  intro t ht
  exact ⟨rfl, rfl, rfl, rfl⟩

/-- Claim C10 counterexample: the claim says a failing decode leaves the
handler with a zero-valued record, a second "the title field is required"
response, and no write. A body whose title member decodes before a
type-mismatched completed member refutes this: `json.Decode` reports the
error yet has already set the title, so the handler skips the second 400
and proceeds to the replacement write. -/
theorem claim_C10_counterexample :
    (decodeTodo (Body.object [("title", JValue.str "buy bread"),
      ("completed", JValue.num 5)])).1 = true ∧
    (decodeTodo (Body.object [("title", JValue.str "buy bread"),
      ("completed", JValue.num 5)])).2 ≠ zeroTodo ∧
    (updateTodo zeroId (Body.object [("title", JValue.str "buy bread"),
      ("completed", JValue.num 5)]) [doc0]).coll ≠ [doc0] ∧
    (⟨statusBadRequest, RespBody.message "the title field is required"⟩ : Response) ∉
      (updateTodo zeroId (Body.object [("title", JValue.str "buy bread"),
        ("completed", JValue.num 5)]) [doc0]).responses := by
  decide

/-- Claim C10 as amended: for every update request whose body fails JSON
decoding, the handler renders the decode-error response and does not abort;
it continues with the wire record as filled by the decoder (zero-valued
only when no member was decoded). When that record has an empty title it
renders the second "the title field is required" bad request and performs
no write; when the decoder already set a non-empty title, no such second
response is rendered and the handler proceeds toward the storage write. -/
theorem claim_C10_decode_error_continues (idParam : String) (body : Body)
    (coll : Collection) (hdec : (decodeTodo body).1 = true) :
    (⟨statusProcessing, RespBody.decodeFailure⟩ : Response) ∈
      (updateTodo idParam body coll).responses ∧
    ((decodeTodo body).2.Title = "" →
      (updateTodo idParam body coll).coll = coll ∧
      (⟨statusBadRequest, RespBody.message "the title field is required"⟩ : Response) ∈
        (updateTodo idParam body coll).responses) ∧
    ((decodeTodo body).2.Title ≠ "" →
      (⟨statusBadRequest, RespBody.message "the title field is required"⟩ : Response) ∉
        (updateTodo idParam body coll).responses) := by
  unfold updateTodo
  simp only [hdec, if_true]
  refine ⟨?_, ?_, ?_⟩
  · split
    · split_ifs <;> simp
    · split
      · split_ifs <;> simp
      · split <;> split_ifs <;> simp
  · intro ht
    simp only [ht, if_pos rfl]
    exact ⟨rfl, by simp⟩
  · intro ht
    simp only [if_neg ht]
    split
    · split_ifs <;> simp
    · split <;> split_ifs <;> simp

/-- Witness for the amended claim C10 at a body that is not a JSON object:
the decoder reports an error, the record stays zero-valued, the second
bad-request response is rendered and nothing is written. -/
theorem claim_C10_decode_error_continues_witness :
    (decodeTodo (Body.malformed [])).1 = true ∧
    ((⟨statusProcessing, RespBody.decodeFailure⟩ : Response) ∈
      (updateTodo "abc" (Body.malformed []) [doc0]).responses ∧
    ((decodeTodo (Body.malformed [])).2.Title = "" →
      (updateTodo "abc" (Body.malformed []) [doc0]).coll = [doc0] ∧
      (⟨statusBadRequest, RespBody.message "the title field is required"⟩ : Response) ∈
        (updateTodo "abc" (Body.malformed []) [doc0]).responses) ∧
    ((decodeTodo (Body.malformed [])).2.Title ≠ "" →
      (⟨statusBadRequest, RespBody.message "the title field is required"⟩ : Response) ∉
        (updateTodo "abc" (Body.malformed []) [doc0]).responses)) :=
  ⟨by decide, claim_C10_decode_error_continues "abc" (Body.malformed []) [doc0] (by decide)⟩

end TodoGo
